import Mathlib

set_option maxHeartbeats 1000000
set_option maxRecDepth 4000

namespace GrokMcp

/-- JSON-like runtime values of the argument trees passed to the MCP tool
handler. JavaScript numbers are modelled as rationals, with a separate
constructor for NaN (the value produced when Number coerces a non-numeric
input). Objects are association lists of key and value. -/
inductive JsVal : Type where
  | str (s : String)
  | num (q : ℚ)
  | nan
  | bool (b : Bool)
  | null
  | arr (xs : List JsVal)
  | obj (fields : List (String × JsVal))

/-- Characters removed from every string value by sanitize: the regex
class of angle brackets, double quote, single quote (code 39) and
backtick (code 96), from the source line obj.replace with the class. -/
def bannedChar (c : Char) : Bool :=
  c = '<' || c = '>' || c = '"' || c = Char.ofNat 39 || c = Char.ofNat 96

/-- Embedding of the string branch of sanitize: remove every banned
character from the string. -/
def sanitizeStr (s : String) : String :=
  ⟨s.data.filter (fun c => !bannedChar c)⟩

/-- Decides whether the pattern list occurs as a contiguous sublist of the
haystack, mirroring the JavaScript String.includes used on object keys. -/
def containsSub (need : List Char) : List Char → Bool
  | [] => need.isEmpty
  | c :: t => need.isPrefixOf (c :: t) || containsSub need t

/-- Embedding of the key filter in sanitize: a key is dropped when it
starts with a dollar sign or contains the double-underscore proto marker. -/
def badKey (k : String) : Bool :=
  (match k.data with
   | c :: _ => c = '$'
   | [] => false) || containsSub "__proto__".data k.data

mutual

/-- Embedding of the sanitize function from the server entry file: strips
the banned characters from every string value, recurses through arrays,
and drops object entries whose key is rejected by badKey while recursing
into the kept values. Non-string scalars are returned unchanged. -/
def sanitize : JsVal → JsVal
  | .str s => .str (sanitizeStr s)
  | .arr xs => .arr (sanitizeList xs)
  | .obj fs => .obj (sanitizeFields fs)
  | .num q => .num q
  | .nan => .nan
  | .bool b => .bool b
  | .null => .null

/-- Pointwise sanitize over the elements of an array value. -/
def sanitizeList : List JsVal → List JsVal
  | [] => []
  | x :: t => sanitize x :: sanitizeList t

/-- Sanitize over object entries: entries with a bad key are skipped, the
others keep their key and sanitize their value. -/
def sanitizeFields : List (String × JsVal) → List (String × JsVal)
  | [] => []
  | (k, v) :: t =>
    if badKey k then sanitizeFields t
    else (k, sanitize v) :: sanitizeFields t

end

/-- Checks that a string contains none of the banned characters. -/
def cleanStr (s : String) : Bool :=
  s.data.all (fun c => !bannedChar c)

mutual

/-- Checks that every string anywhere in the value is clean and that no
object key anywhere in the value is rejected by badKey. -/
def cleanVal : JsVal → Bool
  | .str s => cleanStr s
  | .arr xs => cleanList xs
  | .obj fs => cleanFields fs
  | .num _ => true
  | .nan => true
  | .bool _ => true
  | .null => true

/-- Conjunction of cleanVal over a list of values. -/
def cleanList : List JsVal → Bool
  | [] => true
  | x :: t => cleanVal x && cleanList t

/-- Conjunction over object entries: each key good and each value clean. -/
def cleanFields : List (String × JsVal) → Bool
  | [] => true
  | (k, v) :: t => !badKey k && cleanVal v && cleanFields t

end

/-- JavaScript whitespace test used by trim; restricted to the common
ASCII whitespace characters, which is all the claims exercise. -/
def isWs (c : Char) : Bool :=
  c = ' ' || c = '\t' || c = '\n' || c = '\r'

/-- Character-list version of the JavaScript String.prototype.trim. -/
def jsTrimList (l : List Char) : List Char :=
  ((l.dropWhile isWs).reverse.dropWhile isWs).reverse

/-- JavaScript String.prototype.trim on strings. -/
def jsTrim (s : String) : String :=
  ⟨jsTrimList s.data⟩

/-- Digit test for decimal characters. -/
def isDigit (c : Char) : Bool :=
  48 ≤ c.toNat && c.toNat ≤ 57

/-- Accumulating decimal reading of a digit list; fails on a non-digit. -/
def digitsValAux (acc : ℕ) : List Char → Option ℕ
  | [] => some acc
  | c :: t => if isDigit c then digitsValAux (acc * 10 + (c.toNat - 48)) t else none

/-- Value of a non-empty all-digit character list. -/
def digitsVal : List Char → Option ℕ
  | [] => none
  | l => digitsValAux 0 l

/-- Splits a character list at the first decimal point, if any. -/
def splitFrac : List Char → List Char × Option (List Char)
  | [] => ([], none)
  | c :: t =>
    if c = '.' then ([], some t)
    else
      let p := splitFrac t
      (c :: p.1, p.2)

/-- Embedding of the JavaScript Number coercion on strings restricted to
plain decimal forms: optional sign, digits, optional fraction; the empty
or all-whitespace string is zero; anything else is treated as NaN
(returned as none). Exponent and radix-prefixed forms are outside the
model; no claim depends on them. -/
def jsStringToNumber (s : String) : Option ℚ :=
  let l := jsTrimList s.data
  match l with
  | [] => some 0
  | _ =>
    let sr : ℚ × List Char :=
      match l with
      | c :: r => if c = '-' then (-1, r) else if c = '+' then (1, r) else (1, l)
      | [] => (1, l)
    match splitFrac sr.2 with
    | (ip, none) => (digitsVal ip).map (fun n => sr.1 * (n : ℚ))
    | (ip, some fp) =>
      if ip.isEmpty && fp.isEmpty then none
      else
        let ipart : Option ℕ := if ip.isEmpty then some 0 else digitsVal ip
        let fpart : Option (ℕ × ℕ) :=
          if fp.isEmpty then some (0, 0) else (digitsVal fp).map (fun n => (n, fp.length))
        match ipart, fpart with
        | some i, some fl => some (sr.1 * ((i : ℚ) + (fl.1 : ℚ) / ((10 : ℚ) ^ fl.2)))
        | _, _ => none

/-- Embedding of the JavaScript Number coercion on model values; none
stands for NaN. A singleton array coerces through its element, matching
the stringify-then-parse behaviour on the shapes the model covers. -/
def toNumber : JsVal → Option ℚ
  | .num q => some q
  | .nan => none
  | .bool b => some (if b then 1 else 0)
  | .null => some 0
  | .str s => jsStringToNumber s
  | .arr [] => some 0
  | .arr [x] => toNumber x
  | .arr (_ :: _ :: _) => none
  | .obj _ => none

/-- JavaScript truthiness of a model value. -/
def jsTruthy : JsVal → Bool
  | .str s => !s.data.isEmpty
  | .num q => decide (q ≠ 0)
  | .nan => false
  | .bool b => b
  | .null => false
  | .arr _ => true
  | .obj _ => true

/-- Decimal digit character. -/
def digitChar (n : ℕ) : Char :=
  Char.ofNat (48 + n)

/-- Fuel-driven decimal rendering of a natural number, written so that it
reduces definitionally on concrete inputs. -/
def natReprAux : ℕ → ℕ → List Char
  | 0, _ => []
  | fuel + 1, n => if n < 10 then [digitChar n] else natReprAux fuel (n / 10) ++ [digitChar (n % 10)]

/-- Decimal rendering of a natural number. -/
def natRepr (n : ℕ) : String :=
  ⟨natReprAux (n + 1) n⟩

/-- Decimal rendering of an integer. -/
def intRepr (i : ℤ) : String :=
  if i < 0 then "-" ++ natRepr i.natAbs else natRepr i.natAbs

/-- Rendering of a rational into the interpolated strings of the source.
Integers render exactly as in JavaScript; a non-integer renders as a
fraction, a deliberate simplification documented here because no claim
inspects a string holding a non-integer number. -/
def ratRender (q : ℚ) : String :=
  if q.den = 1 then intRepr q.num else intRepr q.num ++ "/" ++ natRepr q.den

/-- Error kinds of the repository (errors.ts): ValidationError, AuthError,
ExternalServiceError, and generic JavaScript errors whose message may be
absent. The context payloads are not modelled because handleError never
reads them. -/
inductive JsError where
  | validation (message : String)
  | auth (message : String)
  | externalService (message : String) (statusCode : ℕ)
  | generic (message : Option String)
deriving DecidableEq

/-- Message of an error as JavaScript reads err.message; a generic error
may carry none. -/
def errMessageOpt : JsError → Option String
  | .validation m => some m
  | .auth m => some m
  | .externalService m _ => some m
  | .generic om => om

/-- Chat message sent upstream (types.ts GrokMessage). -/
structure GrokMessage where
  role : String
  content : String
deriving DecidableEq

/-- Chat request as the callers of chatCompletion build it: every field
optional, mirroring Partial of GrokChatRequest. -/
structure ChatRequestP where
  model : Option String := none
  messages : Option (List GrokMessage) := none
  temperature : Option ℚ := none
  max_tokens : Option ℚ := none
  stream : Option Bool := none
deriving DecidableEq

/-- Fully defaulted chat request sent to the upstream endpoint. -/
structure GrokChatRequestF where
  model : String
  messages : List GrokMessage
  temperature : Option ℚ
  max_tokens : Option ℚ
  stream : Bool
deriving DecidableEq

/-- Choice message of an upstream chat response; content may be null. -/
structure GrokMessageOut where
  role : String
  content : Option String
deriving DecidableEq

/-- One choice of an upstream chat response. -/
structure ChatChoice where
  message : GrokMessageOut
deriving DecidableEq

/-- Upstream chat response restricted to the choices list, the only field
the embedded code ever reads (id, usage and the other metadata fields of
types.ts are never consulted). -/
structure GrokChatResponse where
  choices : List ChatChoice
deriving DecidableEq

/-- Time filter enumeration of the search request. -/
inductive TimeFilter where
  | day | week | month | year | all
deriving DecidableEq

/-- Search request (types.ts GrokSearchRequest). -/
structure GrokSearchRequest where
  query : String
  max_results : Option ℚ := none
  include_images : Option Bool := none
  include_news : Option Bool := none
  time_filter : Option TimeFilter := none
deriving DecidableEq

/-- One search result (types.ts). -/
structure SearchResult where
  title : String
  url : String
  snippet : String
  published_date : Option String := none
  source : Option String := none
deriving DecidableEq

/-- Search response (types.ts GrokSearchResponse). -/
structure GrokSearchResponse where
  results : List SearchResult
  total_results : ℕ
  search_time : ℚ
deriving DecidableEq

/-- Immutable client configuration (types.ts GrokConfig). -/
structure GrokConfig where
  apiKey : String
  baseUrl : String
  model : String
  temperature : ℚ
  maxTokens : ℚ
deriving DecidableEq

/-- Outcome of one raw upstream HTTP attempt: a payload, an error that
axios.isAxiosError recognises (carrying the status and message the code
interpolates), or any other thrown value. -/
inductive NetOutcome (α : Type) where
  | ok (data : α)
  | axiosErr (status : Option ℕ) (message : String)
  | thrown (e : JsError)
deriving DecidableEq

/-- Payload stored in the shared client cache; chat and search responses
share one cache whose keys are disjoint by their type tag. -/
inductive CachedPayload where
  | chat (r : GrokChatResponse)
  | search (r : GrokSearchResponse)
deriving DecidableEq

/-- State of the upstream client: the response cache as an association
list of key, payload and insertion time in milliseconds. The lru-cache
dependency is modelled by its TTL behaviour; capacity eviction at 100
entries is not modelled because no claim exercises it. -/
structure ClientState where
  cache : List (String × CachedPayload × ℕ)
deriving DecidableEq

/-- Cache TTL of five minutes in milliseconds, from the constructor. -/
def cacheTTL : ℕ := 1000 * 60 * 5

/-- Lookup of the raw cache entry for a key. -/
def cacheFind : List (String × CachedPayload × ℕ) → String → Option (CachedPayload × ℕ)
  | [], _ => none
  | (k, v, t0) :: rest, key => if k = key then some (v, t0) else cacheFind rest key

/-- Cache read at a given time: an entry is returned only while its age
does not exceed the TTL, matching the staleness rule of lru-cache. -/
def cacheGet (st : ClientState) (key : String) (now : ℕ) : Option CachedPayload :=
  match cacheFind st.cache key with
  | some (v, t0) => if now - t0 ≤ cacheTTL then some v else none
  | none => none

/-- Cache write: replaces any entry under the same key and records the
insertion time. -/
def cacheSet (st : ClientState) (key : String) (v : CachedPayload) (now : ℕ) : ClientState :=
  ⟨(key, v, now) :: st.cache.filter (fun e => !(e.1 == key))⟩

/-- Serialization of an optional field into the cache key. -/
def optSer (f : α → String) : Option α → String
  | none => ""
  | some a => "+" ++ f a

/-- Serialization of one message into the cache key. -/
def msgSer (m : GrokMessage) : String :=
  "(" ++ m.role ++ ":" ++ m.content ++ ")"

/-- Serialization of a message list into the cache key. -/
def msgsSer (l : List GrokMessage) : String :=
  String.join (l.map msgSer)

/-- Deterministic cache key of a chat request, standing in for the
JSON.stringify of the tagged request object: a function of the request
fields, prefixed with the chat type tag. -/
def chatKey (r : ChatRequestP) : String :=
  "chat|" ++ optSer id r.model ++ "|" ++ optSer msgsSer r.messages ++ "|"
    ++ optSer ratRender r.temperature ++ "|" ++ optSer ratRender r.max_tokens ++ "|"
    ++ optSer (fun b => if b then "t" else "f") r.stream

/-- Defaulting of a chat request before the network call: a falsy model
falls back to the configured model, messages default to the empty list,
temperature and max tokens take the configured defaults when absent, and
stream is false. The trailing object spread of the source re-copies the
request fields, which at the option level of this model coincides with
the defaults shown here. -/
def mkFullChatRequest (cfg : GrokConfig) (r : ChatRequestP) : GrokChatRequestF :=
  { model := match r.model with
      | some m => if m.data.isEmpty then cfg.model else m
      | none => cfg.model
  , messages := r.messages.getD []
  , temperature := some (r.temperature.getD cfg.temperature)
  , max_tokens := some (r.max_tokens.getD cfg.maxTokens)
  , stream := false }

/-- Rendering of the optional axios status into the wrapped message. -/
def statusRepr : Option ℕ → String
  | some n => natRepr n
  | none => "undefined"

/-- Embedding of GrokClient.chatCompletion: computes the deterministic
cache key, returns the cached payload on a fresh hit with no upstream
call, and otherwise performs the upstream call (modelled by the outcome
function), caching a successful response. An axios failure is rethrown as
a generic Error carrying the interpolated status and message; any other
thrown value propagates unchanged. The returned triple is the result, the
new client state, and the number of upstream network calls performed. -/
def chatCompletion (cfg : GrokConfig) (req : ChatRequestP) (st : ClientState) (now : ℕ)
    (upstream : GrokChatRequestF → NetOutcome GrokChatResponse) :
    Except JsError GrokChatResponse × ClientState × ℕ :=
  let key := chatKey req
  match cacheGet st key now with
  | some (.chat c) => (.ok c, st, 0)
  | _ =>
    match upstream (mkFullChatRequest cfg req) with
    | .ok resp => (.ok resp, cacheSet st key (.chat resp) now, 1)
    | .axiosErr status msg =>
      (.error (.generic (some ("Grok API Error: " ++ statusRepr status ++ " - " ++ msg))), st, 1)
    | .thrown e => (.error e, st, 1)

/-- Fixed system message of the simulated search chat call. -/
def simSystemMsg : String :=
  "You are a search results generator. Respond ONLY with valid JSON. Do not include any explanation or additional text."

/-- Requested result count interpolated into the simulated search prompt:
a falsy max_results falls back to five. -/
def simCount (r : GrokSearchRequest) : ℚ :=
  match r.max_results with
  | some q => if q = 0 then 5 else q
  | none => 5

/-- User prompt of the simulated search chat call, from the template
literal in simulateSearch. -/
def simPrompt (req : GrokSearchRequest) : String :=
  "I need you to simulate web search results for the query: \"" ++ req.query ++ "\"\n\n"
  ++ "Please provide " ++ ratRender (simCount req)
  ++ " realistic search results that someone would find when searching for this topic online.\n\n"
  ++ "Respond with ONLY valid JSON in this exact format:\n"
  ++ "\x7b\n  \"results\": [\n    \x7b\n      \"title\": \"Title of the webpage\",\n"
  ++ "      \"url\": \"https://example.com/page\",\n"
  ++ "      \"snippet\": \"Brief description of what this page contains\",\n"
  ++ "      \"published_date\": \"2024-01-01\" (optional)\n    \x7d\n  ]\n\x7d\n\n"
  ++ "Make sure:\n- URLs are realistic and related to the topic\n"
  ++ "- Snippets are informative and relevant\n- No extra text outside the JSON\n"
  ++ "- Each result has title, url, and snippet"

/-- Chat request issued by simulateSearch. -/
def simChatReq (req : GrokSearchRequest) : ChatRequestP :=
  { messages := some [⟨"system", simSystemMsg⟩, ⟨"user", simPrompt req⟩]
  , temperature := some (1 / 10)
  , max_tokens := some 2000 }

/-- Matches a literal character list at the head of the input, returning
the remainder on success. -/
def chompLit : List Char → List Char → Option (List Char)
  | [], l => some l
  | _ :: _, [] => none
  | a :: la, b :: lb => if a = b then chompLit la lb else none

/-- Drops one leading newline if present, for the optional newline of the
code fence regex. -/
def chompNl : List Char → List Char
  | c :: r => if c = '\n' then r else c :: r
  | [] => []

/-- Fuel-driven scan removing every markdown code fence occurrence, the
global replace of the fence regex: at each position the json-tagged fence
with optional newline is preferred, then the plain fence with optional
newline, otherwise the character is kept. Fuel equal to the input length
always suffices since every step consumes at least one character. -/
def stripFencesAux : ℕ → List Char → List Char
  | 0, l => l
  | _ + 1, [] => []
  | fuel + 1, c :: t =>
    match chompLit ("```json".data) (c :: t) with
    | some rest => stripFencesAux fuel (chompNl rest)
    | none =>
      match chompLit ("```".data) (c :: t) with
      | some rest => stripFencesAux fuel (chompNl rest)
      | none => c :: stripFencesAux fuel t

/-- Markdown code fence removal on strings. -/
def stripFences (s : String) : String :=
  ⟨stripFencesAux s.data.length s.data⟩

/-- Opening curly brace character, written by code point. -/
def lbraceChar : Char := Char.ofNat 123

/-- Closing curly brace character, written by code point. -/
def rbraceChar : Char := Char.ofNat 125

/-- Prefix of the input up to and including its last closing brace. -/
def takeThroughLastRBrace (l : List Char) : Option (List Char) :=
  let r := l.reverse.dropWhile (fun c => !(c == rbraceChar))
  if r.isEmpty then none else some r.reverse

/-- Embedding of the greedy brace-block regex match: the span from the
first opening brace through the last closing brace after it, if any. -/
def extractJsonBlock (l : List Char) : Option (List Char) :=
  let suf := l.dropWhile (fun c => !(c == lbraceChar))
  match suf with
  | [] => none
  | c :: rest =>
    match takeThroughLastRBrace rest with
    | some body => some (c :: body)
    | none => none

/-- Default content used when the chat response has no message content,
the literal JSON object with an empty results list. -/
def defaultSimContent : String := "\x7b\"results\": []\x7d"

/-- Raw content read from the simulated search chat response, with the
falsy fallback to the default content. -/
def simRawContent (resp : GrokChatResponse) : String :=
  match resp.choices.head? with
  | some ch =>
    match ch.message.content with
    | some c => if c.data.isEmpty then defaultSimContent else c
    | none => defaultSimContent
  | none => defaultSimContent

/-- Content cleanup pipeline of simulateSearch: trim, remove code fences,
then keep the brace-delimited block when one matches. -/
def cleanSimContent (resp : GrokChatResponse) : String :=
  let c2 := stripFences (jsTrim (simRawContent resp))
  match extractJsonBlock c2.data with
  | some m => ⟨m⟩
  | none => c2

/-- Shape of the parsed simulated search JSON as the code reads it: the
results field may be absent. JSON.parse itself is an external built-in,
so it enters the model as a parameter of type String to Option SimParsed,
where none is a parse failure (thrown SyntaxError). -/
structure SimParsed where
  results : Option (List SearchResult)
deriving DecidableEq

/-- Unreserved characters of encodeURIComponent. -/
def unreservedURI (c : Char) : Bool :=
  (65 ≤ c.toNat && c.toNat ≤ 90) || (97 ≤ c.toNat && c.toNat ≤ 122) || isDigit c ||
  c = '-' || c = '_' || c = '.' || c = '!' || c = '~' || c = '*' || c = Char.ofNat 39 ||
  c = '(' || c = ')'

/-- Uppercase hexadecimal digit. -/
def hexDigitChar (n : ℕ) : Char :=
  if n < 10 then Char.ofNat (48 + n) else Char.ofNat (55 + n)

/-- UTF-8 bytes of a code point. -/
def utf8Bytes (n : ℕ) : List ℕ :=
  if n < 128 then [n]
  else if n < 2048 then [192 + n / 64, 128 + n % 64]
  else if n < 65536 then [224 + n / 4096, 128 + (n / 64) % 64, 128 + n % 64]
  else [240 + n / 262144, 128 + (n / 4096) % 64, 128 + (n / 64) % 64, 128 + n % 64]

/-- Percent-encoding of one character as encodeURIComponent does. -/
def pctEncodeChar (c : Char) : List Char :=
  if unreservedURI c then [c]
  else ((utf8Bytes c.toNat).map (fun b => ['%', hexDigitChar (b / 16), hexDigitChar (b % 16)])).flatten

/-- Embedding of the JavaScript encodeURIComponent built-in. -/
def encodeURIComponent (s : String) : String :=
  ⟨(s.data.map pctEncodeChar).flatten⟩

/-- Deterministic single fallback result built from the original query,
returned when the simulated search JSON cannot be parsed. -/
def fallbackResults (query : String) : List SearchResult :=
  [ { title := "Search results for: " ++ query
    , url := "https://www.google.com/search?q=" ++ encodeURIComponent query
    , snippet := "Information about " ++ query
        ++ " - simulated search result as the live search API is not available." } ]

/-- Embedding of GrokClient.simulateSearch: issues the simulated search
chat completion; a failure of that call propagates. On success the
response content is cleaned up and handed to JSON.parse (the parseJson
parameter): a successful parse yields the parsed results list, possibly
empty, and a parse failure yields the single deterministic fallback
result, never an error. -/
def simulateSearch (cfg : GrokConfig) (req : GrokSearchRequest) (st : ClientState) (now : ℕ)
    (upstream : GrokChatRequestF → NetOutcome GrokChatResponse)
    (parseJson : String → Option SimParsed) :
    Except JsError GrokSearchResponse × ClientState × ℕ :=
  match chatCompletion cfg (simChatReq req) st now upstream with
  | (.error e, st2, n) => (.error e, st2, n)
  | (.ok resp, st2, n) =>
    match parseJson (cleanSimContent resp) with
    | some p =>
      (.ok { results := p.results.getD [], total_results := (p.results.getD []).length,
             search_time := 1 / 2 }, st2, n)
    | none =>
      (.ok { results := fallbackResults req.query, total_results := 1, search_time := 1 / 2 },
       st2, n)

/-- Serialization of the time filter into the cache key. -/
def tfSer : TimeFilter → String
  | .day => "day"
  | .week => "week"
  | .month => "month"
  | .year => "year"
  | .all => "all"

/-- Serialization of a boolean into the cache key. -/
def boolSer (b : Bool) : String :=
  if b then "t" else "f"

/-- Deterministic cache key of a search request, standing in for the
JSON.stringify of the tagged request object. -/
def searchKey (r : GrokSearchRequest) : String :=
  "search|" ++ r.query ++ "|" ++ optSer ratRender r.max_results ++ "|"
    ++ optSer boolSer r.include_images ++ "|" ++ optSer boolSer r.include_news ++ "|"
    ++ optSer tfSer r.time_filter

/-- Embedding of GrokClient.liveSearch: a fresh cache hit is returned
with no upstream call; otherwise the direct search endpoint is attempted
(its outcome is the postSearch parameter). A successful direct response
is cached and returned; an axios-recognised failure falls back to
simulateSearch; any other thrown value propagates unchanged. The count in
the triple is the number of upstream network calls performed, counting
the failed direct attempt. -/
def liveSearch (cfg : GrokConfig) (req : GrokSearchRequest) (st : ClientState) (now : ℕ)
    (postSearch : NetOutcome GrokSearchResponse)
    (upstream : GrokChatRequestF → NetOutcome GrokChatResponse)
    (parseJson : String → Option SimParsed) :
    Except JsError GrokSearchResponse × ClientState × ℕ :=
  let key := searchKey req
  match cacheGet st key now with
  | some (.search s) => (.ok s, st, 0)
  | _ =>
    match postSearch with
    | .ok resp => (.ok resp, cacheSet st key (.search resp) now, 1)
    | .axiosErr _ _ =>
      let r := simulateSearch cfg req st now upstream parseJson
      (r.1, r.2.1, r.2.2 + 1)
    | .thrown e => (.error e, st, 1)

/-- One entry of the upstream models listing. -/
structure ModelEntry where
  id : String
deriving DecidableEq

/-- Body of the upstream models listing; the inner data array may be
absent. -/
structure ModelsPayload where
  data : Option (List ModelEntry)
deriving DecidableEq

/-- Hard-coded fallback list of model identifiers returned by getModels
on any failure. -/
def fallbackModels : List String :=
  ["grok-4-1-fast-reasoning", "grok-4-1-fast-non-reasoning", "grok-code-fast-1", "grok-4",
   "grok-3"]

/-- Embedding of GrokClient.getModels: maps a successful payload to its
model identifiers, with the single-model default when the data array is
absent, and returns the hard-coded fallback list on any failure. The List
return type records that the function never raises. -/
def getModels (outcome : NetOutcome ModelsPayload) : List String :=
  match outcome with
  | .ok payload =>
    match payload.data with
    | some ms => ms.map ModelEntry.id
    | none => ["grok-4"]
  | .axiosErr _ _ => fallbackModels
  | .thrown _ => fallbackModels

/-- Embedding of GrokClient.testConnection: true exactly when the minimal
chat completion it issues succeeds; every failure becomes false. The Bool
return type records that the function never raises. -/
def testConnection (result : Except JsError GrokChatResponse) : Bool :=
  match result with
  | .ok _ => true
  | .error _ => false

/-- Configuration used by the concrete client scenarios. -/
def sampleCfg : GrokConfig :=
  ⟨"xai-key", "https://api.x.ai/v1", "grok-4.1-fast", 7 / 10, 4000⟩

/-- Chat request of the C6 witness scenario. -/
def c6Req : ChatRequestP :=
  { messages := some [⟨"user", "hi"⟩] }

/-- Upstream chat response of the C6 witness scenario. -/
def c6Resp : GrokChatResponse :=
  ⟨[⟨⟨"assistant", some "hello"⟩⟩]⟩

/-- Upstream oracle of the C6 witness scenario. -/
def c6Upstream : GrokChatRequestF → NetOutcome GrokChatResponse :=
  fun _ => .ok c6Resp

/-- Search request of the C3 scenarios. -/
def c3Req : GrokSearchRequest :=
  { query := "test" }

/-- Chat response whose content is valid JSON with an empty results list. -/
def c3ChatResp : GrokChatResponse :=
  ⟨[⟨⟨"assistant", some "\x7b\"results\": []\x7d"⟩⟩]⟩

/-- Upstream oracle returning the empty-results JSON content. -/
def c3Upstream : GrokChatRequestF → NetOutcome GrokChatResponse :=
  fun _ => .ok c3ChatResp

/-- JSON.parse oracle consistent with the content of c3ChatResp: that
exact object literal parses to an empty results array. -/
def c3Parse : String → Option SimParsed :=
  fun s => if s = defaultSimContent then some ⟨some []⟩ else none

/-- Chat response with prose content carrying no JSON object. -/
def c3ChatRespRaw : GrokChatResponse :=
  ⟨[⟨⟨"assistant", some "I could not find any results."⟩⟩]⟩

/-- Upstream oracle returning the prose content. -/
def c3UpstreamRaw : GrokChatRequestF → NetOutcome GrokChatResponse :=
  fun _ => .ok c3ChatRespRaw

/-- JSON.parse oracle consistent with the prose content: parsing it
throws, modelled as none. -/
def c3ParseFail : String → Option SimParsed :=
  fun _ => none

/-- Node crypto.timingSafeEqual restricted to equal-length inputs decides
byte equality in constant time; its value is modelled as equality of the
character sequences of the two token strings. -/
def timingSafeEqual (a b : List Char) : Bool :=
  a == b

/-- JavaScript truthiness of an optional string: missing or empty is
falsy. -/
def jsTruthyOptStr : Option String → Bool
  | some s => !s.data.isEmpty
  | none => false

/-- Message of the authentication error thrown by checkAuth. -/
def authErrorMsg : String := "Unauthorized: invalid or missing auth token"

/-- Embedding of checkAuth from the server entry file: a falsy token or a
falsy configured secret is rejected; otherwise the token is rejected
unless it has the same length as the secret and the constant-time
comparison accepts it. -/
def checkAuth (token sharedSecret : Option String) : Except JsError Unit :=
  if !jsTruthyOptStr token || !jsTruthyOptStr sharedSecret then
    .error (.auth authErrorMsg)
  else
    match token, sharedSecret with
    | some t, some s =>
      if !(t.data.length == s.data.length) || !timingSafeEqual t.data s.data then
        .error (.auth authErrorMsg)
      else .ok ()
    | _, _ => .error (.auth authErrorMsg)

/-- Lookup of an object entry by key. -/
def lookupField : List (String × JsVal) → String → Option JsVal
  | [], _ => none
  | (k, v) :: t, key => if k = key then some v else lookupField t key

/-- JavaScript property read on a model value: objects look up the key,
everything else yields undefined (none). -/
def jsGetField : JsVal → String → Option JsVal
  | .obj fs, k => lookupField fs k
  | _, _ => none

/-- Object test matching the zod object requirement. -/
def isObj : JsVal → Bool
  | .obj _ => true
  | _ => false

/-- Reading of a zod string field. -/
def asString : JsVal → Option String
  | .str s => some s
  | _ => none

/-- Reading of a zod number field; the NaN value is rejected as zod
does. -/
def asNumber : JsVal → Option ℚ
  | .num q => some q
  | _ => none

/-- Reading of a zod boolean field. -/
def asBool : JsVal → Option Bool
  | .bool b => some b
  | _ => none

/-- Reading of the time filter enumeration field. -/
def asTimeFilter : JsVal → Option TimeFilter
  | .str s =>
    if s = "day" then some .day
    else if s = "week" then some .week
    else if s = "month" then some .month
    else if s = "year" then some .year
    else if s = "all" then some .all
    else none
  | _ => none

/-- Reading of an optional zod field: an absent property validates to
none, a present property must satisfy the field reader. -/
def optField (v : JsVal) (k : String) (f : JsVal → Option α) : Option (Option α) :=
  match jsGetField v k with
  | none => some none
  | some x => (f x).map some

/-- Validated arguments of grok_ask (the zod object in the grok_ask
case). -/
structure AskArgs where
  question : String
  context : Option String := none
  system_prompt : Option String := none
  temperature : Option ℚ := none
  max_tokens : Option ℚ := none
  include_search : Option Bool := none
  model : Option String := none
deriving DecidableEq

/-- Embedding of the grok_ask zod schema: question is a non-empty string,
temperature lies in zero to one, max tokens in one to eight thousand, the
remaining fields are optional with their plain types. -/
def parseAsk (v : JsVal) : Option AskArgs := do
  guard (isObj v)
  let q ← (jsGetField v "question").bind asString
  guard (1 ≤ q.data.length)
  let ctx ← optField v "context" asString
  let sp ← optField v "system_prompt" asString
  let tp ← optField v "temperature" (fun x => do
    let n ← asNumber x
    guard (0 ≤ n ∧ n ≤ 1)
    pure n)
  let mt ← optField v "max_tokens" (fun x => do
    let n ← asNumber x
    guard (1 ≤ n ∧ n ≤ 8000)
    pure n)
  let inc ← optField v "include_search" asBool
  let md ← optField v "model" asString
  pure ⟨q, ctx, sp, tp, mt, inc, md⟩

/-- Validated arguments of grok_chat. -/
structure ChatArgsV where
  messages : List GrokMessage
  model : Option String := none
  temperature : Option ℚ := none
  max_tokens : Option ℚ := none
deriving DecidableEq

/-- Embedding of one message object of the grok_chat schema. -/
def parseMessage (m : JsVal) : Option GrokMessage := do
  guard (isObj m)
  let r ← (jsGetField m "role").bind asString
  guard (r = "system" ∨ r = "user" ∨ r = "assistant")
  let c ← (jsGetField m "content").bind asString
  pure ⟨r, c⟩

/-- Embedding of the messages array of the grok_chat schema. -/
def parseMessages : JsVal → Option (List GrokMessage)
  | .arr xs => xs.mapM parseMessage
  | _ => none

/-- Embedding of the grok_chat zod schema. -/
def parseChat (v : JsVal) : Option ChatArgsV := do
  guard (isObj v)
  let ms ← (jsGetField v "messages").bind parseMessages
  let md ← optField v "model" asString
  let tp ← optField v "temperature" (fun x => do
    let n ← asNumber x
    guard (0 ≤ n ∧ n ≤ 1)
    pure n)
  let mt ← optField v "max_tokens" (fun x => do
    let n ← asNumber x
    guard (1 ≤ n ∧ n ≤ 8000)
    pure n)
  pure ⟨ms, md, tp, mt⟩

/-- Embedding of the grok_search zod schema: query is any string, and the
optional max_results must be an integer-valued number, the only numeric
constraint the schema imposes. -/
def parseSearchArgs (v : JsVal) : Option GrokSearchRequest := do
  guard (isObj v)
  let q ← (jsGetField v "query").bind asString
  let mr ← optField v "max_results" (fun x => do
    let n ← asNumber x
    guard (n.den = 1)
    pure n)
  let ii ← optField v "include_images" asBool
  let inw ← optField v "include_news" asBool
  let tf ← optField v "time_filter" asTimeFilter
  pure ⟨q, mr, ii, inw, tf⟩

/-- Assignment to an existing object property, preserving entry order. -/
def setField : List (String × JsVal) → String → JsVal → List (String × JsVal)
  | [], _, _ => []
  | (k, v) :: t, key, nv =>
    if k = key then (k, nv) :: setField t key nv else (k, v) :: setField t key nv

/-- Embedding of the max_results coercion run before the grok_search
validation: when the property is present and truthy it is replaced by the
floor of its Number coercion, NaN staying NaN; a falsy or absent property
is left untouched, as is any non-object argument value. -/
def coerceMaxResults (v : JsVal) : JsVal :=
  match v with
  | .obj fs =>
    match lookupField fs "max_results" with
    | some mr =>
      if jsTruthy mr then
        let nv := match toNumber mr with
          | some q => JsVal.num ((Rat.floor q : ℤ) : ℚ)
          | none => JsVal.nan
        .obj (setField fs "max_results" nv)
      else v
    | none => v
  | _ => v

/-- One item of the response envelope content array. -/
structure ContentItem where
  type : String
  text : String
deriving DecidableEq

/-- Response envelope of a tool call: a content list and, for the health
tool, a metrics snapshot string. -/
structure Envelope where
  content : List ContentItem
  metrics : Option String := none
deriving DecidableEq

/-- Message selected by handleError: recognized error kinds surface their
own message; any other error carrying a truthy message also surfaces it;
only a message-less or empty-message generic failure collapses to the
generic internal-error text. -/
def jsDisplayMessage : JsError → String
  | .validation m => m
  | .auth m => m
  | .externalService m _ => m
  | .generic (some m) => if m.data.isEmpty then "Internal server error" else m
  | .generic none => "Internal server error"

/-- Embedding of handleError: the selected message is rendered into a
normal envelope with the Error prefix; nothing is rethrown. -/
def handleError (e : JsError) : Envelope :=
  { content := [⟨"text", "Error: " ++ jsDisplayMessage e⟩] }

/-- Upstream-client operations observable at the pipeline boundary. -/
inductive UpstreamOp where
  | ask | chat | search | models | testConn
deriving DecidableEq

/-- Boundary model of the GrokClient instance as the pipeline sees it:
the three fallible operations are outcome functions of their validated
arguments, while getModels and testConnection enter as plain values
because they never raise (established against their own embeddings
above). The metrics snapshot of the health tool is a plain string. -/
structure Upstream where
  askFn : AskArgs → Except JsError String
  chatFn : ChatArgsV → Except JsError GrokChatResponse
  searchFn : GrokSearchRequest → Except JsError GrokSearchResponse
  modelsFn : List String
  testFn : Bool
  metricsText : String

/-- Embedding of the safe wrappers around the client operations: any
failure is rethrown as an ExternalServiceError with status 502 whose
message appends the original truthy message to the operation prefix. -/
def wrapSafe (opName : String) (e : JsError) : JsError :=
  match errMessageOpt e with
  | some m =>
    if m.data.isEmpty then .externalService opName 502
    else .externalService (opName ++ ": " ++ m) 502
  | none => .externalService opName 502

/-- Inbound tool request as delivered by the transport: tool name,
argument tree, and the optional auth token of the request parameters. -/
structure ToolRequest where
  name : String
  arguments : JsVal
  auth : Option String := none

/-- Separator join of a string list, as Array.prototype.join. -/
def joinSep (sep : String) : List String → String
  | [] => ""
  | [s] => s
  | s :: r :: t => s ++ sep ++ joinSep sep (r :: t)

/-- Formatting of one numbered search result line group. -/
def formatResult (i : ℕ) (r : SearchResult) : String :=
  natRepr (i + 1) ++ ". " ++ r.title ++ "\n" ++ r.url ++ "\n" ++ r.snippet ++
    (match r.published_date with
     | some d => "\nPublished: " ++ d
     | none => "")

/-- Formatting of the search result list. -/
def formattedResults (rs : List SearchResult) : String :=
  joinSep "\n\n" (rs.enum.map (fun p => formatResult p.1 p.2))

/-- Text of the grok_search success envelope. -/
def formatSearchText (query : String) (sres : GrokSearchResponse) : String :=
  "Search Results for \"" ++ query ++ "\" (" ++ natRepr sres.total_results
    ++ " results found in " ++ ratRender sres.search_time ++ "s):\n\n"
    ++ formattedResults sres.results

/-- Success text of grok_test_connection; the decorative leading emoji of
the source string is omitted, and no claim inspects this text. -/
def connOkText : String :=
  "Grok API connection successful! Ready to use Grok 4."

/-- Failure text of grok_test_connection, with the same emoji omission. -/
def connFailText : String :=
  "Grok API connection failed. Please check your API key and configuration."

/-- Text of the grok_models envelope. -/
def modelsText (models : List String) : String :=
  "Available Grok models:\n" ++ joinSep "\n" (models.map (fun m => "- " ++ m))

/-- Embedding of the body of the try block of handleToolCall: the
argument tree is sanitized first, then the named tool validates the
sanitized tree against its zod schema and dispatches to the upstream
boundary. The result carries the envelope or thrown error, the upstream
operations invoked, and the number of latency-timer end calls performed
inside the try block; the grok_search success branch returns without
calling end, exactly as the source does. -/
def handleToolCallInner (u : Upstream) (req : ToolRequest) :
    Except JsError Envelope × List UpstreamOp × ℕ :=
  let safeArgs := sanitize req.arguments
  match req.name with
  | "grok_ask" =>
    match parseAsk safeArgs with
    | none => (.error (.validation "Invalid input for grok_ask"), [], 0)
    | some a =>
      match u.askFn a with
      | .error e => (.error (wrapSafe "Grok ask failed" e), [.ask], 0)
      | .ok text => (.ok { content := [⟨"text", text⟩] }, [.ask], 1)
  | "grok_chat" =>
    match parseChat safeArgs with
    | none => (.error (.validation "Invalid input for grok_chat"), [], 0)
    | some a =>
      match u.chatFn a with
      | .error e => (.error (wrapSafe "Grok chat failed" e), [.chat], 0)
      | .ok resp =>
        let t := match resp.choices.head? with
          | some ch => ch.message.content.getD ""
          | none => ""
        (.ok { content := [⟨"text",
            if t.data.isEmpty then "No response generated" else t⟩] }, [.chat], 1)
  | "grok_search" =>
    match parseSearchArgs (coerceMaxResults safeArgs) with
    | none => (.error (.validation "Invalid input for grok_search"), [], 0)
    | some sreq =>
      match u.searchFn sreq with
      | .error e => (.error (wrapSafe "Grok search failed" e), [.search], 0)
      | .ok sres =>
        (.ok { content := [⟨"text", formatSearchText sreq.query sres⟩] }, [.search], 0)
  | "grok_health" =>
    (.ok { content := [⟨"text", "OK: Grok 4 MCP Server healthy"⟩],
           metrics := some u.metricsText }, [], 1)
  | "grok_models" =>
    (.ok { content := [⟨"text", modelsText u.modelsFn⟩] }, [.models], 1)
  | "grok_test_connection" =>
    (.ok { content := [⟨"text", if u.testFn then connOkText else connFailText⟩] },
     [.testConn], 1)
  | _ => (.ok { content := [⟨"text", "Error: Unknown tool: " ++ req.name⟩] }, [], 1)

/-- Metric events of one handleToolCall run: each counter increment and
latency record carries the label it was given, and the source calls inc
and startTimer with no label, so every recorded label is none even though
the metric declarations announce a tool label. -/
structure Trace where
  requestIncs : List (Option String)
  errorIncs : List (Option String)
  latencyRecs : List (Option String)
  upstreamOps : List UpstreamOp
deriving DecidableEq

/-- Embedding of handleToolCall: the request counter is incremented
unlabelled before anything else; the checkAuth invocation of the source
is commented out (auth check removed for open access), so the configured
shared secret and the presented token are threaded here but never
consulted; the try body runs, and a thrown error is caught, counted on
the unlabelled error counter, given a latency end call, and rendered by
handleError into a normal envelope rather than being rethrown. -/
def handleToolCall (sharedSecret : Option String) (u : Upstream) (req : ToolRequest) :
    Envelope × Trace :=
  match handleToolCallInner u req with
  | (.ok env, ops, lat) => (env, ⟨[none], [], List.replicate lat none, ops⟩)
  | (.error e, ops, lat) =>
    (handleError e, ⟨[none], [none], List.replicate lat none ++ [none], ops⟩)

/-- Names of the registered tools of the dispatch switch. -/
def registeredToolNames : List String :=
  ["grok_ask", "grok_chat", "grok_search", "grok_models", "grok_test_connection",
   "grok_health"]

/-- Search response returned by the stub upstream boundary. -/
def stubSearchResp : GrokSearchResponse :=
  ⟨[⟨"Result", "https://example.com/a", "Snippet", none, none⟩], 1, 1 / 2⟩

/-- Chat response returned by the stub upstream boundary. -/
def stubChatResp : GrokChatResponse :=
  ⟨[⟨⟨"assistant", some "hello"⟩⟩]⟩

/-- Stub upstream boundary used by the concrete pipeline scenarios: every
operation succeeds with a fixed value. -/
def stubUpstream : Upstream :=
  { askFn := fun _ => .ok "ok"
  , chatFn := fun _ => .ok stubChatResp
  , searchFn := fun _ => .ok stubSearchResp
  , modelsFn := ["grok-4"]
  , testFn := true
  , metricsText := "" }

/-- Rational value of the float 3.7, written with an explicit reduced
fraction so that concrete evaluation goes through the kernel. -/
def threePointSeven : ℚ := ⟨37, 10, by decide, by decide⟩

theorem cleanStr_sanitizeStr (s : String) : cleanStr (sanitizeStr s) = true := by
  simp only [cleanStr, sanitizeStr, List.all_eq_true]
  intro c hc
  exact (List.mem_filter.mp hc).2

theorem sanitizeStr_idem (s : String) : sanitizeStr (sanitizeStr s) = sanitizeStr s := by
  unfold sanitizeStr
  congr 1
  simp [List.filter_filter]

mutual

theorem cleanVal_sanitize : (v : JsVal) → cleanVal (sanitize v) = true
  | .str s => by simp [sanitize, cleanVal, cleanStr_sanitizeStr]
  | .arr xs => by simp [sanitize, cleanVal, cleanList_sanitizeList xs]
  | .obj fs => by simp [sanitize, cleanVal, cleanFields_sanitizeFields fs]
  | .num q => rfl
  | .nan => rfl
  | .bool b => rfl
  | .null => rfl

theorem cleanList_sanitizeList : (xs : List JsVal) → cleanList (sanitizeList xs) = true
  | [] => rfl
  | x :: t => by
    simp [sanitizeList, cleanList, cleanVal_sanitize x, cleanList_sanitizeList t]

theorem cleanFields_sanitizeFields : (fs : List (String × JsVal)) →
    cleanFields (sanitizeFields fs) = true
  | [] => rfl
  | (k, v) :: t => by
    by_cases h : badKey k
    · simp [sanitizeFields, h, cleanFields_sanitizeFields t]
    · simp [sanitizeFields, h, cleanFields, cleanVal_sanitize v,
        cleanFields_sanitizeFields t]

end

mutual

theorem sanitize_idem : (v : JsVal) → sanitize (sanitize v) = sanitize v
  | .str s => by simp [sanitize, sanitizeStr_idem]
  | .arr xs => by simp [sanitize, sanitizeList_idem xs]
  | .obj fs => by simp [sanitize, sanitizeFields_idem fs]
  | .num q => rfl
  | .nan => rfl
  | .bool b => rfl
  | .null => rfl

theorem sanitizeList_idem : (xs : List JsVal) → sanitizeList (sanitizeList xs) = sanitizeList xs
  | [] => rfl
  | x :: t => by simp [sanitizeList, sanitize_idem x, sanitizeList_idem t]

theorem sanitizeFields_idem : (fs : List (String × JsVal)) →
    sanitizeFields (sanitizeFields fs) = sanitizeFields fs
  | [] => rfl
  | (k, v) :: t => by
    by_cases h : badKey k
    · simp [sanitizeFields, h, sanitizeFields_idem t]
    · simp [sanitizeFields, h, sanitize_idem v, sanitizeFields_idem t]

end

theorem sanitizeList_eq_map : ∀ xs : List JsVal, sanitizeList xs = xs.map sanitize
  | [] => rfl
  | x :: t => by simp [sanitizeList, sanitizeList_eq_map t]

/-- C6: chatCompletion computes its cache key as a function of the
request, so identical requests share a key; starting from a state with no
fresh entry for that key, the first call performs exactly one upstream
network call and caches the response, and a second identical call within
the TTL window returns the same response from the cache with zero
upstream calls. -/
theorem chatCompletion_cache_idempotent (cfg : GrokConfig) (req : ChatRequestP)
    (st0 : ClientState) (t1 t2 : ℕ)
    (upstream : GrokChatRequestF → NetOutcome GrokChatResponse) (resp : GrokChatResponse)
    (hmiss : cacheGet st0 (chatKey req) t1 = none)
    (hok : upstream (mkFullChatRequest cfg req) = .ok resp)
    (httl : t2 - t1 ≤ cacheTTL) :
    chatCompletion cfg req st0 t1 upstream =
      (.ok resp, cacheSet st0 (chatKey req) (.chat resp) t1, 1) ∧
    chatCompletion cfg req (cacheSet st0 (chatKey req) (.chat resp) t1) t2 upstream =
      (.ok resp, cacheSet st0 (chatKey req) (.chat resp) t1, 0) := by
  constructor
  · simp [chatCompletion, hmiss, hok]
  · simp [chatCompletion, cacheGet, cacheSet, cacheFind, httl]

theorem chatCompletion_cache_idempotent_witness :
    cacheGet ⟨[]⟩ (chatKey c6Req) 0 = none ∧
    c6Upstream (mkFullChatRequest sampleCfg c6Req) = .ok c6Resp ∧
    1000 - 0 ≤ cacheTTL ∧
    (chatCompletion sampleCfg c6Req ⟨[]⟩ 0 c6Upstream =
        (.ok c6Resp, cacheSet ⟨[]⟩ (chatKey c6Req) (.chat c6Resp) 0, 1) ∧
      chatCompletion sampleCfg c6Req (cacheSet ⟨[]⟩ (chatKey c6Req) (.chat c6Resp) 0) 1000
          c6Upstream =
        (.ok c6Resp, cacheSet ⟨[]⟩ (chatKey c6Req) (.chat c6Resp) 0, 0)) :=
  ⟨rfl, rfl, by decide,
    chatCompletion_cache_idempotent sampleCfg c6Req ⟨[]⟩ 0 1000 c6Upstream c6Resp rfl rfl
      (by decide)⟩

/-- C9: getModels and testConnection never raise. Both are total
functions into plain values; every failing outcome of the underlying call
maps to the hard-coded fallback model list, respectively false, and every
successful outcome maps to the listed identifiers, respectively true. -/
theorem getModels_testConnection_never_raise :
    (∀ status msg, getModels (.axiosErr status msg) = fallbackModels) ∧
    (∀ e, getModels (.thrown e) = fallbackModels) ∧
    (∀ ms, getModels (.ok ⟨some ms⟩) = ms.map ModelEntry.id) ∧
    getModels (.ok ⟨none⟩) = ["grok-4"] ∧
    (∀ r, testConnection (.ok r) = true) ∧
    (∀ e, testConnection (.error e) = false) :=
  ⟨fun _ _ => rfl, fun _ => rfl, fun _ => rfl, rfl, fun _ => rfl, fun _ => rfl⟩

/-- C3 counterexample: the upstream search endpoint throws an
axios-recognised error, the simulated fallback chat call succeeds with
content that parses to an empty results array, and liveSearch returns a
response whose results array is empty, contradicting the claimed
non-emptiness. -/
theorem liveSearch_empty_results_counterexample :
    (liveSearch sampleCfg c3Req ⟨[]⟩ 0
        (.axiosErr (some 404) "Request failed with status code 404") c3Upstream c3Parse).1 =
      .ok ⟨[], 0, 1 / 2⟩ := by
  rfl

/-- C3 (amended): when the direct search endpoint fails with an
axios-recognised error and the fallback chat completion succeeds, a parse
failure of the simulated-search JSON never escapes: liveSearch returns
the single deterministic fallback result built from the original query.
However a non-axios failure of the direct call propagates unchanged, as
does a failure of the fallback chat completion itself, and a successfully
parsed empty results list is returned as an empty results array. -/
theorem liveSearch_fallback_amended :
    (∀ cfg req st now upstream parseJson status msg resp st2 n,
      cacheGet st (searchKey req) now = none →
      chatCompletion cfg (simChatReq req) st now upstream = (.ok resp, st2, n) →
      parseJson (cleanSimContent resp) = none →
      liveSearch cfg req st now (.axiosErr status msg) upstream parseJson =
        (.ok { results := fallbackResults req.query, total_results := 1, search_time := 1 / 2 },
         st2, n + 1)) ∧
    (∀ cfg req st now upstream parseJson e,
      cacheGet st (searchKey req) now = none →
      liveSearch cfg req st now (.thrown e) upstream parseJson = (.error e, st, 1)) ∧
    (∀ cfg req st now upstream parseJson status msg e st2 n,
      cacheGet st (searchKey req) now = none →
      chatCompletion cfg (simChatReq req) st now upstream = (.error e, st2, n) →
      liveSearch cfg req st now (.axiosErr status msg) upstream parseJson =
        (.error e, st2, n + 1)) := by
  refine ⟨?_, ?_, ?_⟩
  · intro cfg req st now upstream parseJson status msg resp st2 n hmiss hchat hparse
    simp [liveSearch, hmiss, simulateSearch, hchat, hparse]
  · intro cfg req st now upstream parseJson e hmiss
    simp [liveSearch, hmiss]
  · intro cfg req st now upstream parseJson status msg e st2 n hmiss hchat
    simp [liveSearch, hmiss, simulateSearch, hchat]

theorem liveSearch_fallback_amended_witness :
    cacheGet ⟨[]⟩ (searchKey c3Req) 0 = none ∧
    chatCompletion sampleCfg (simChatReq c3Req) ⟨[]⟩ 0 c3UpstreamRaw =
      (.ok c3ChatRespRaw, cacheSet ⟨[]⟩ (chatKey (simChatReq c3Req)) (.chat c3ChatRespRaw) 0, 1) ∧
    c3ParseFail (cleanSimContent c3ChatRespRaw) = none ∧
    liveSearch sampleCfg c3Req ⟨[]⟩ 0 (.axiosErr (some 500) "boom") c3UpstreamRaw c3ParseFail =
      (.ok { results := fallbackResults "test", total_results := 1, search_time := 1 / 2 },
       cacheSet ⟨[]⟩ (chatKey (simChatReq c3Req)) (.chat c3ChatRespRaw) 0, 2) :=
  ⟨rfl, rfl, rfl,
    liveSearch_fallback_amended.1 sampleCfg c3Req ⟨[]⟩ 0 c3UpstreamRaw c3ParseFail (some 500)
      "boom" c3ChatRespRaw (cacheSet ⟨[]⟩ (chatKey (simChatReq c3Req)) (.chat c3ChatRespRaw) 0)
      1 rfl rfl rfl⟩

/-- C1 counterexample: with shared secret abc configured and token ab
presented, handleToolCall on grok_models is not rejected with an
AuthError: it returns the normal models envelope, records no error, and
invokes the upstream models operation, because the checkAuth call is
commented out in the source. -/
theorem handleToolCall_no_auth_counterexample :
    checkAuth (some "ab") (some "abc") = .error (.auth authErrorMsg) ∧
    handleToolCall (some "abc") stubUpstream ⟨"grok_models", .null, some "ab"⟩ =
      ({ content := [⟨"text", "Available Grok models:\n- grok-4"⟩] },
       ⟨[none], [], [none], [.models]⟩) := by
  exact ⟨rfl, rfl⟩

/-- C1 (amended): checkAuth, had it been called, rejects every token
different from the configured secret with an AuthError through the
equal-length check followed by the constant-time comparison; but
handleToolCall never invokes checkAuth, so its behaviour is independent
of both the configured secret and the presented token, and no call is
rejected before upstream dispatch. -/
theorem checkAuth_rejects_but_pipeline_ignores_auth :
    (∀ t s : String, t ≠ s → checkAuth (some t) (some s) = .error (.auth authErrorMsg)) ∧
    (∀ (sec sec' : Option String) (u : Upstream) (name : String) (args : JsVal)
        (tok tok' : Option String),
      handleToolCall sec u ⟨name, args, tok⟩ = handleToolCall sec' u ⟨name, args, tok'⟩) := by
  constructor
  · intro t s hne
    have hd : t.data ≠ s.data := by
      intro h
      exact hne (congrArg String.mk h)
    have hbeq : (t.data == s.data) = false := beq_eq_false_iff_ne.mpr hd
    by_cases h1 : t.data.isEmpty <;> by_cases h2 : s.data.isEmpty <;>
      simp [checkAuth, jsTruthyOptStr, timingSafeEqual, h1, h2, hbeq]
  · intro sec sec' u name args tok tok'
    rfl

theorem checkAuth_rejects_but_pipeline_ignores_auth_witness :
    ("ab" : String) ≠ "abc" ∧
    checkAuth (some "ab") (some "abc") = .error (.auth authErrorMsg) ∧
    handleToolCall (some "abc") stubUpstream ⟨"grok_test_connection", .null, some "ab"⟩ =
      handleToolCall none stubUpstream ⟨"grok_test_connection", .null, none⟩ :=
  ⟨by decide,
    checkAuth_rejects_but_pipeline_ignores_auth.1 "ab" "abc" (by decide),
    checkAuth_rejects_but_pipeline_ignores_auth.2 (some "abc") none stubUpstream
      "grok_test_connection" .null (some "ab") none⟩

/-- C2 counterexample: an unrecognized generic error carrying the message
boom is rendered with its own message rather than the generic
internal-error text, so failures outside the recognized kinds do not all
collapse to the generic message. -/
theorem handleError_leaks_generic_message :
    handleError (.generic (some "boom")) = { content := [⟨"text", "Error: boom"⟩] } ∧
    ("Error: boom" : String) ≠ "Error: Internal server error" :=
  ⟨rfl, by decide⟩

/-- C2 (amended): whenever the try body of handleToolCall throws, the
call still returns a normal envelope, produced by handleError, whose
single text item prefixes Error to the thrown message: the message of a
recognized kind, the own message of any other error that carries a truthy
one, and the generic internal-error text only for message-less failures. -/
theorem handleToolCall_error_envelope (u : Upstream) (req : ToolRequest) (e : JsError)
    (h : (handleToolCallInner u req).1 = .error e) (sec : Option String) :
    (handleToolCall sec u req).1 = handleError e ∧
    (handleToolCall sec u req).1.content = [⟨"text", "Error: " ++ jsDisplayMessage e⟩] := by
  have h1 : handleToolCallInner u req =
      (Except.error e, (handleToolCallInner u req).2.1, (handleToolCallInner u req).2.2) := by
    rw [← h]
  constructor
  · unfold handleToolCall
    rw [h1]
  · unfold handleToolCall
    rw [h1]
    rfl

theorem handleToolCall_error_envelope_witness :
    (handleToolCallInner stubUpstream ⟨"grok_ask", .null, none⟩).1 =
      .error (.validation "Invalid input for grok_ask") ∧
    (handleToolCall none stubUpstream ⟨"grok_ask", .null, none⟩).1.content =
      [⟨"text", "Error: Invalid input for grok_ask"⟩] :=
  ⟨rfl,
    (handleToolCall_error_envelope stubUpstream ⟨"grok_ask", .null, none⟩
      (.validation "Invalid input for grok_ask") rfl none).2⟩

/-- C4: on the grok_search success path the request counter is
incremented without any tool label and no latency record is ever made,
because the source increments the counter before reading the tool name,
passes no label, and returns from the grok_search case without calling
the timer end function. The claim of tool-labelled counters and latency
recording for every tool therefore fails on this path. -/
theorem grok_search_metrics_code_bug :
    handleToolCall none stubUpstream ⟨"grok_search", .obj [("query", .str "test")], none⟩ =
      ({ content := [⟨"text", formatSearchText "test" stubSearchResp⟩] },
       ⟨[none], [], [], [.search]⟩) := by
  rfl

/-- C5: sanitization produces a tree whose strings contain none of the
banned characters and whose object keys are all acceptable, leaves
non-string scalars unchanged, preserves array structure pointwise, and
runs before schema validation: the whole pipeline result depends on the
argument tree only through its sanitized form. -/
theorem sanitize_before_validation :
    (∀ v : JsVal, cleanVal (sanitize v) = true) ∧
    (∀ q : ℚ, sanitize (.num q) = .num q) ∧
    (∀ b : Bool, sanitize (.bool b) = .bool b) ∧
    sanitize .null = .null ∧
    (∀ xs : List JsVal, sanitize (.arr xs) = .arr (xs.map sanitize)) ∧
    (∀ (u : Upstream) (sec : Option String) (name : String) (tok : Option String)
        (a b : JsVal),
      sanitize a = sanitize b →
      handleToolCall sec u ⟨name, a, tok⟩ = handleToolCall sec u ⟨name, b, tok⟩) := by
  refine ⟨cleanVal_sanitize, fun _ => rfl, fun _ => rfl, rfl, ?_, ?_⟩
  · intro xs
    simp [sanitize, sanitizeList_eq_map]
  · intro u sec name tok a b hsan
    have h2 : handleToolCallInner u ⟨name, a, tok⟩ = handleToolCallInner u ⟨name, b, tok⟩ := by
      unfold handleToolCallInner
      simp only
      rw [hsan]
    unfold handleToolCall
    rw [h2]

theorem sanitize_before_validation_witness :
    sanitize (.obj [("question", .str "<b>hi</b>")]) =
      sanitize (.obj [("question", .str "bhi/b")]) ∧
    handleToolCall none stubUpstream ⟨"grok_ask", .obj [("question", .str "<b>hi</b>")], none⟩ =
      handleToolCall none stubUpstream ⟨"grok_ask", .obj [("question", .str "bhi/b")], none⟩ :=
  ⟨rfl,
    sanitize_before_validation.2.2.2.2.2 stubUpstream none "grok_ask" none
      (.obj [("question", .str "<b>hi</b>")]) (.obj [("question", .str "bhi/b")]) rfl⟩

/-- C7: the float 3.7 given as max_results is coerced by truncation to 3
before validation and accepted, as the claim records; but the zod schema
only requires an integer, not a positive one, so the non-positive values
0 and minus one also pass validation, and the 0 request is dispatched to
the upstream search operation, contradicting the claim that exactly the
positive integers are accepted and the advertised minimum of one. -/
theorem grok_search_accepts_nonpositive_code_bug :
    parseSearchArgs (coerceMaxResults (sanitize
        (.obj [("query", .str "test"), ("max_results", .num threePointSeven)]))) =
      some { query := "test", max_results := some 3 } ∧
    parseSearchArgs (coerceMaxResults (sanitize
        (.obj [("query", .str "test"), ("max_results", .num 0)]))) =
      some { query := "test", max_results := some 0 } ∧
    parseSearchArgs (coerceMaxResults (sanitize
        (.obj [("query", .str "test"), ("max_results", .num (-1))]))) =
      some { query := "test", max_results := some (-1) } ∧
    (handleToolCall none stubUpstream
        ⟨"grok_search", .obj [("query", .str "test"), ("max_results", .num 0)], none⟩
      ).2.upstreamOps = [.search] := by
  refine ⟨by decide, by decide, by decide, by decide⟩

/-- C8: a tool name outside the registered set reaches the default case
of the dispatch: the try body returns a normal unknown-tool envelope
rather than throwing, so the outer catch never runs, no error is counted
and no upstream operation is invoked, and the channel receives an
ordinary response. -/
theorem handleToolCall_unknown_tool (u : Upstream) (sec tok : Option String)
    (name : String) (args : JsVal) (h : name ∉ registeredToolNames) :
    handleToolCallInner u ⟨name, args, tok⟩ =
      (.ok { content := [⟨"text", "Error: Unknown tool: " ++ name⟩] }, [], 1) ∧
    handleToolCall sec u ⟨name, args, tok⟩ =
      ({ content := [⟨"text", "Error: Unknown tool: " ++ name⟩] },
       ⟨[none], [], [none], []⟩) := by
  simp only [registeredToolNames, List.mem_cons, List.not_mem_nil, or_false] at h
  push_neg at h
  obtain ⟨h1, h2, h3, h4, h5, h6⟩ := h
  have hinner : handleToolCallInner u ⟨name, args, tok⟩ =
      (.ok { content := [⟨"text", "Error: Unknown tool: " ++ name⟩] }, [], 1) := by
    unfold handleToolCallInner
    split
    · exact absurd (by assumption) h1
    · exact absurd (by assumption) h2
    · exact absurd (by assumption) h3
    · exact absurd (by assumption) h6
    · exact absurd (by assumption) h4
    · exact absurd (by assumption) h5
    · rfl
  refine ⟨hinner, ?_⟩
  unfold handleToolCall
  rw [hinner]
  rfl

theorem handleToolCall_unknown_tool_witness :
    "grok_bogus" ∉ registeredToolNames ∧
    handleToolCall none stubUpstream ⟨"grok_bogus", .null, none⟩ =
      ({ content := [⟨"text", "Error: Unknown tool: grok_bogus"⟩] },
       ⟨[none], [], [none], []⟩) :=
  ⟨by decide,
    (handleToolCall_unknown_tool stubUpstream none none "grok_bogus" .null (by decide)).2⟩

/-- C10: sanitize is idempotent, returns non-string scalars unchanged,
and preserves the length and order of arrays, acting pointwise on their
elements, so applying the sanitization step more than once can never
further alter an argument tree. -/
theorem sanitize_idempotent :
    (∀ v : JsVal, sanitize (sanitize v) = sanitize v) ∧
    (∀ q : ℚ, sanitize (.num q) = .num q) ∧
    (∀ b : Bool, sanitize (.bool b) = .bool b) ∧
    sanitize .null = .null ∧
    (∀ xs : List JsVal, sanitize (.arr xs) = .arr (xs.map sanitize)) ∧
    (∀ xs : List JsVal, (sanitizeList xs).length = xs.length) := by
  refine ⟨sanitize_idem, fun _ => rfl, fun _ => rfl, rfl, ?_, ?_⟩
  · intro xs
    simp [sanitize, sanitizeList_eq_map]
  · intro xs
    simp [sanitizeList_eq_map]

end GrokMcp
